import Mathlib

/-!
Verification of the Calico IP-pool Terraform resource adapter.

This file shallowly embeds the Go source of the provider's single resource
(`resourceIPPool` and its helpers) into Lean.  Remote effects (the Kubernetes
clientset calls) are modelled by an environment record `Calico.Meta` of
call outcomes, and the operations additionally return a trace of events
(lock acquisition/release, fetches, and write calls) so that the locking
discipline of `getIPPool` is visible.  Go `error` values are modelled as
strings; `diag.Diagnostics` is modelled as a list of error strings where the
empty list is success.  Library message texts are abbreviated (no claim
depends on their exact wording), but their multiplicity and order follow the
library code.
-/

namespace Calico

/-- Go `error` values, modelled as their message strings. -/
abbrev GoError := String

/- ===== k8s.io/apimachinery qualified-name validation (dependency used by
   `validateAnnotations`), translated from its Go source. ===== -/

/-- Maximum byte length of the name part of a qualified name (library constant 63). -/
def qualifiedNameMaxLength : Nat := 63

/-- Maximum byte length of a DNS-1123 subdomain (library constant 253). -/
def dns1123SubdomainMaxLength : Nat := 253

/-- One character of the class written `[A-Za-z0-9]` in the library regex. -/
def isQnameChar (c : Char) : Bool := c.isAlphanum

/-- One character of the class written `[-A-Za-z0-9_.]` in the library regex. -/
def isQnameExtChar (c : Char) : Bool :=
  c.isAlphanum || c == '-' || c == '_' || c == '.'

/-- Matcher for the non-first characters of the qualified-name regex: all but
the last are extended characters, the last is alphanumeric. -/
def qnameTail : List Char → Bool
  | [] => false
  | [c] => isQnameChar c
  | c :: rest => isQnameExtChar c && qnameTail rest

/-- Anchored matcher for the library regex `([A-Za-z0-9][-A-Za-z0-9_.]*)?[A-Za-z0-9]`. -/
def qnameMatch : List Char → Bool
  | [] => false
  | [c] => isQnameChar c
  | c :: rest => isQnameChar c && qnameTail rest

/-- One character of the class written `[a-z0-9]` in the DNS-1123 label regex. -/
def isLowerAlnumChar (c : Char) : Bool := c.isLower || c.isDigit

/-- Matcher for the non-first characters of a DNS-1123 label: all but the last
are lowercase alphanumerics or dashes, the last is a lowercase alphanumeric. -/
def dnsLabelTail : List Char → Bool
  | [] => false
  | [c] => isLowerAlnumChar c
  | c :: rest => (isLowerAlnumChar c || c == '-') && dnsLabelTail rest

/-- Anchored matcher for the DNS-1123 label regex `[a-z0-9]([-a-z0-9]*[a-z0-9])?`. -/
def dnsLabelMatch : List Char → Bool
  | [] => false
  | [c] => isLowerAlnumChar c
  | c :: rest => isLowerAlnumChar c && dnsLabelTail rest

/-- Anchored matcher for the DNS-1123 subdomain regex: dot-separated DNS-1123
labels, at least one, no empty part. -/
def dns1123SubdomainMatch (s : String) : Bool :=
  (s.splitOn ".").all (fun part => dnsLabelMatch part.data)

/-- Library `IsDNS1123Subdomain`: a max-length error when over 253 bytes, then a
format error when the subdomain regex does not match. -/
def isDNS1123Subdomain (value : String) : List String :=
  (if value.utf8ByteSize > dns1123SubdomainMaxLength
   then ["must be no more than 253 characters"] else [])
  ++ (if !dns1123SubdomainMatch value
      then ["must consist of lower case alphanumeric characters, dashes or dots"]
      else [])

/-- Abbreviated library message for a malformed qualified-name part. -/
def qualifiedNameErrMsg : String :=
  "must consist of alphanumeric characters, dashes, underscores or dots, and must start and end with an alphanumeric character"

/-- Errors of the name part of a qualified name: empty / over 63 bytes, then the
regex check (performed even for an empty name, as in the library). -/
def qnameNameErrors (name : String) : List String :=
  (if name.isEmpty then ["name part must be non-empty"]
   else if name.utf8ByteSize > qualifiedNameMaxLength
   then ["name part must be no more than 63 characters"]
   else [])
  ++ (if !qnameMatch name.data then ["name part " ++ qualifiedNameErrMsg] else [])

/-- Library `IsQualifiedName`: splits on the slash; one part is a bare name, two
parts are a DNS-1123 subdomain followed by a name, more parts are a single
format error. -/
def IsQualifiedName (value : String) : List String :=
  match value.splitOn "/" with
  | [name] => qnameNameErrors name
  | [pfx, name] =>
      (if pfx.isEmpty then ["prefix part must be non-empty"]
       else (isDNS1123Subdomain pfx).map (fun msg => "prefix part " ++ msg))
      ++ qnameNameErrors name
  | _ => ["a qualified name " ++ qualifiedNameErrMsg
            ++ " with an optional DNS subdomain prefix and slash"]

/- ===== The adapter's own helpers. ===== -/

/-- Source `validateAnnotations`: the annotations map is modelled as an
association list; for each key the lowercased key is checked with
`IsQualifiedName`, and every resulting message is appended (prefixed with the
schema key and the offending map key) to the returned error list.  The first
component models the (always empty) warnings slice. -/
def validateAnnotations (value : List (String × String)) (key : String) :
    List String × List GoError :=
  ([], value.flatMap (fun kv =>
    (IsQualifiedName kv.1.toLower).map
      (fun e => key ++ " (\"" ++ kv.1 ++ "\") " ++ e)))

/-- Constant `calicov3.IPIPModeAlways`. -/
def IPIPModeAlways : String := "Always"

/-- Constant `calicov3.IPIPModeCrossSubnet`. -/
def IPIPModeCrossSubnet : String := "CrossSubnet"

/-- Constant `calicov3.IPIPModeNever`. -/
def IPIPModeNever : String := "Never"

/-- Constant `calicov3.VXLANModeAlways`. -/
def VXLANModeAlways : String := "Always"

/-- Constant `calicov3.VXLANModeCrossSubnet`. -/
def VXLANModeCrossSubnet : String := "CrossSubnet"

/-- Constant `calicov3.VXLANModeNever`. -/
def VXLANModeNever : String := "Never"

/-- Source `getVXLANMode`: switch on the mode string with a default of Never. -/
def getVXLANMode (mode : String) : String :=
  match mode with
  | "Always" => VXLANModeAlways
  | "CrossSubnet" => VXLANModeCrossSubnet
  | _ => VXLANModeNever

/-- Source `getIPIPMode`: switch on the mode string with a default of Never. -/
def getIPIPMode (mode : String) : String :=
  match mode with
  | "Always" => IPIPModeAlways
  | "CrossSubnet" => IPIPModeCrossSubnet
  | _ => IPIPModeNever

/- ===== Data model. ===== -/

/-- The `calicov3.IPPoolSpec` fields set by this adapter. -/
structure IPPoolSpec where
  blockSize : Int
  cidr : String
  disabled : Bool
  ipipMode : String
  vxlanMode : String
  natOutgoing : Bool
  disableBGPExport : Bool
deriving DecidableEq, Repr

/-- The `calicov3.IPPool` fields set by this adapter (ObjectMeta narrowed to the
fields the adapter touches; annotations as an association list). -/
structure IPPool where
  name : String
  resourceVersion : String
  annotations : List (String × String)
  spec : IPPoolSpec
deriving DecidableEq, Repr

/-- The `schema.ResourceData` handle, flattened: `id` is the Terraform id
(`d.Id`/`d.SetId`), the remaining fields are the values `d.Get` returns for
`metadata.0.*` and `spec.0.*`, which `d.Set` overwrites. -/
structure ResourceData where
  id : String
  name : String
  resourceVersion : String
  annotations : List (String × String)
  cidr : String
  blockSize : Int
  ipipMode : String
  vxlanMode : String
  natOutgoing : Bool
  disabled : Bool
  disableBGPExport : Bool
deriving DecidableEq, Repr

/-- Observable events of one lifecycle invocation: mutex acquisition and
release, the remote Get inside `getIPPool`, and the remote write calls. -/
inductive Event where
  | lock : Event
  | unlock : Event
  | fetch : String → Event
  | createCall : IPPool → Event
  | updateCall : IPPool → Event
  | deleteCall : String → Event
deriving DecidableEq, Repr

/-- Whether an event touches the process-wide mutex. -/
def isLockEvent : Event → Bool
  | Event.lock => true
  | Event.unlock => true
  | _ => false

/-- Every fetch in the trace sits inside an acquire/release pair: each
occurrence of `fetch` is immediately preceded by `lock` and immediately
followed by `unlock`. -/
def fetchesUnderLock : List Event → Bool
  | [] => true
  | Event.lock :: Event.fetch _ :: Event.unlock :: rest => fetchesUnderLock rest
  | Event.fetch _ :: _ => false
  | _ :: rest => fetchesUnderLock rest

/-- Modelled from the spec: the `Meta` handle (defined in a source file not
provided) carries the shared clientset configuration and the process-wide
mutex.  It is modelled as an environment fixing the outcome of
`GetCalicoConfiguration` and of each remote clientset call; the mutex itself
is represented by the `lock`/`unlock` trace events emitted at its use sites. -/
structure Meta where
  getCalicoConfiguration : Except GoError Unit
  poolsGet : String → Except GoError IPPool
  poolsCreate : IPPool → Except GoError IPPool
  poolsUpdate : IPPool → Except GoError IPPool
  poolsDelete : String → Option GoError

/-- Source `getIPPool`: acquire the lock, perform the remote Get, release the
lock (the deferred unlock runs on the success and the error path alike). -/
def getIPPool (m : Meta) (name : String) : Except GoError IPPool × List Event :=
  (match m.poolsGet name with
   | Except.error e => Except.error e
   | Except.ok r => Except.ok r,
   [Event.lock, Event.fetch name, Event.unlock])

/-- Source `setResourceAttributes`: set the id to the fetched pool's name and
overwrite every metadata and spec field from the fetched object (`d.Set` is
modelled as always succeeding). -/
def setResourceAttributes (d : ResourceData) (r : IPPool) : ResourceData :=
  { d with
    id := r.name
    name := r.name
    resourceVersion := r.resourceVersion
    annotations := r.annotations
    blockSize := r.spec.blockSize
    cidr := r.spec.cidr
    disabled := r.spec.disabled
    ipipMode := r.spec.ipipMode
    vxlanMode := r.spec.vxlanMode
    natOutgoing := r.spec.natOutgoing
    disableBGPExport := r.spec.disableBGPExport }

/-- Source `setIPPoolAttributes`: build the submitted pool from the local
configuration fields (`expandStringMap` is the identity under this string-typed
embedding of the annotations map). -/
def setIPPoolAttributes (d : ResourceData) : IPPool :=
  { name := d.name
    resourceVersion := d.resourceVersion
    annotations := d.annotations
    spec :=
      { blockSize := d.blockSize
        cidr := d.cidr
        disabled := d.disabled
        ipipMode := getIPIPMode d.ipipMode
        vxlanMode := getVXLANMode d.vxlanMode
        natOutgoing := d.natOutgoing
        disableBGPExport := d.disableBGPExport } }

/-- Source `resourceIPPoolExists`: fetch the configuration, then `getIPPool`;
`(true, nil)` when the fetch succeeds, `(false, the error)` otherwise. -/
def resourceIPPoolExists (m : Meta) (d : ResourceData) :
    (Bool × Option GoError) × List Event :=
  match m.getCalicoConfiguration with
  | Except.error e => ((false, some e), [])
  | Except.ok _ =>
    let g := getIPPool m d.name
    (match g.1 with
     | Except.ok _ => (true, none)
     | Except.error e => (false, some e),
     g.2)

/-- Result of one lifecycle operation: the resource data after the call, the
returned diagnostics (empty = success), and the trace of remote/mutex events. -/
structure OpOut where
  state : ResourceData
  diags : List GoError
  trace : List Event
deriving DecidableEq, Repr

/-- Source `resourceIPPoolRead`: call Exists; forward its error if any; clear
the id and succeed when it reports absence; otherwise fetch the pool again and
overwrite the local fields from it. -/
def resourceIPPoolRead (m : Meta) (d : ResourceData) : OpOut :=
  let ex := resourceIPPoolExists m d
  match ex.1.2 with
  | some e => ⟨d, [e], ex.2⟩
  | none =>
    if ex.1.1 = false then ⟨{ d with id := "" }, [], ex.2⟩
    else
      match m.getCalicoConfiguration with
      | Except.error e => ⟨d, [e], ex.2⟩
      | Except.ok _ =>
        let g := getIPPool m d.name
        match g.1 with
        | Except.error e => ⟨d, [e], ex.2 ++ g.2⟩
        | Except.ok r => ⟨setResourceAttributes d r, [], ex.2 ++ g.2⟩

/-- Source `resourceIPPoolCreate`: build the pool from the local configuration,
submit it to the remote Create, and on success set the id to the submitted
object's name; the server's reply is discarded. -/
def resourceIPPoolCreate (m : Meta) (d : ResourceData) : OpOut :=
  match m.getCalicoConfiguration with
  | Except.error e => ⟨d, [e], []⟩
  | Except.ok _ =>
    let ippool := setIPPoolAttributes d
    match m.poolsCreate ippool with
    | Except.error e => ⟨d, [e], [Event.createCall ippool]⟩
    | Except.ok _ => ⟨{ d with id := ippool.name }, [], [Event.createCall ippool]⟩

/-- Source `resourceIPPoolUpdate`: build the full replacement pool from the
local configuration, submit it to the remote Update, and on success set the id
to the submitted object's name; the server's reply is discarded. -/
def resourceIPPoolUpdate (m : Meta) (d : ResourceData) : OpOut :=
  match m.getCalicoConfiguration with
  | Except.error e => ⟨d, [e], []⟩
  | Except.ok _ =>
    let ippool := setIPPoolAttributes d
    match m.poolsUpdate ippool with
    | Except.error e => ⟨d, [e], [Event.updateCall ippool]⟩
    | Except.ok _ => ⟨{ d with id := ippool.name }, [], [Event.updateCall ippool]⟩

/-- Source `resourceIPPoolDelete`: issue a single remote Delete by name, with no
prior existence check; any error is forwarded and leaves the state unchanged. -/
def resourceIPPoolDelete (m : Meta) (d : ResourceData) : OpOut :=
  match m.getCalicoConfiguration with
  | Except.error e => ⟨d, [e], []⟩
  | Except.ok _ =>
    match m.poolsDelete d.name with
    | some e => ⟨d, [e], [Event.deleteCall d.name]⟩
    | none => ⟨d, [], [Event.deleteCall d.name]⟩

/- ===== Schema declaration for the two mode fields (claim C8). ===== -/

/-- Library `validation.StringInSlice` specialised to its error list: an error
when the value is not in the allowed slice (case sensitively when `ignoreCase`
is false). -/
def stringInSlice (valid : List String) (ignoreCase : Bool) (v : String)
    (k : String) : List GoError :=
  if valid.any (fun s => s = v || (ignoreCase && s.toLower = v.toLower)) then []
  else ["expected " ++ k ++ " to be one of the allowed values, got " ++ v]

/-- The schema attributes of one mode field that matter here: its default, its
`ValidateFunc`, and its `ConflictsWith` list. -/
structure ModeFieldSchema where
  defaultValue : String
  validateFunc : String → String → List GoError
  conflictsWith : List String

/-- Source schema entry for `spec.0.ipip_mode` in `resourceCalicoIPPoolSchemaV3`. -/
def ipipModeSchema : ModeFieldSchema :=
  { defaultValue := "Never"
    validateFunc := stringInSlice ["Always", "CrossSubnet", "Never"] false
    conflictsWith := ["spec.0.vxlan_mode"] }

/-- Source schema entry for `spec.0.vxlan_mode` in `resourceCalicoIPPoolSchemaV3`. -/
def vxlanModeSchema : ModeFieldSchema :=
  { defaultValue := "Never"
    validateFunc := stringInSlice ["Always", "CrossSubnet", "Never"] false
    conflictsWith := ["spec.0.ipip_mode"] }

/-- Modelled from the spec: the configuration framework (the plugin SDK, not
part of these sources) validates a configuration before any remote call is
made.  It runs each declared `ValidateFunc` on the value supplied for its
field, and it rejects the configuration when a field is set to a non-default
value while a field named in its `ConflictsWith` list is also set to a
non-default value.  `none` means the field is absent from the configuration. -/
def setNonDefault (field : Option String) (dflt : String) : Bool :=
  match field with
  | some v => v != dflt
  | none => false

/-- Modelled from the spec: the `ConflictsWith` rejection — an error for each
mode field set to a non-default value whose declared conflict partner is also
set to a non-default value. -/
def conflictErrors (ipip vxlan : Option String) : List GoError :=
  (if setNonDefault ipip ipipModeSchema.defaultValue
      && ipipModeSchema.conflictsWith.contains "spec.0.vxlan_mode"
      && setNonDefault vxlan vxlanModeSchema.defaultValue
   then ["spec.0.ipip_mode conflicts with spec.0.vxlan_mode"] else [])
  ++ (if setNonDefault vxlan vxlanModeSchema.defaultValue
         && vxlanModeSchema.conflictsWith.contains "spec.0.ipip_mode"
         && setNonDefault ipip ipipModeSchema.defaultValue
      then ["spec.0.vxlan_mode conflicts with spec.0.ipip_mode"] else [])

/-- Modelled from the spec: the whole configuration-level validation of the two
mode fields — each declared `ValidateFunc` applied to the supplied value,
followed by the `ConflictsWith` check; a non-empty result rejects the
configuration before any remote call. -/
def validateModeConfig (ipip vxlan : Option String) : List GoError :=
  (match ipip with
   | none => []
   | some v => ipipModeSchema.validateFunc v "spec.0.ipip_mode")
  ++ (match vxlan with
      | none => []
      | some v => vxlanModeSchema.validateFunc v "spec.0.vxlan_mode")
  ++ conflictErrors ipip vxlan

/- ===== Theorems. ===== -/

/-- Claim C3: the mode-translation functions `getIPIPMode` and `getVXLANMode`
map "Always" to Always and "CrossSubnet" to CrossSubnet, and every other
string (including the empty string) to Never; being total functions, they
raise no error. -/
theorem mode_translation_total (s : String) :
    getIPIPMode s = (if s = "Always" then IPIPModeAlways
      else if s = "CrossSubnet" then IPIPModeCrossSubnet else IPIPModeNever)
    ∧ getVXLANMode s = (if s = "Always" then VXLANModeAlways
      else if s = "CrossSubnet" then VXLANModeCrossSubnet else VXLANModeNever) := by
  constructor
  · unfold getIPIPMode
    split <;> simp_all
  · unfold getVXLANMode
    split <;> simp_all

/-- Claim C4: `validateAnnotations` emits no warnings, returns exactly one
error per syntax violation of each lowercased key (so every offending key is
reported, with all of its violations, rather than stopping at the first), and
returns no errors precisely when every lowercased key is a qualified name. -/
theorem validateAnnotations_collects (value : List (String × String))
    (key : String) :
    (validateAnnotations value key).1 = []
    ∧ (validateAnnotations value key).2.length
        = (value.map (fun kv => (IsQualifiedName kv.1.toLower).length)).sum
    ∧ ((validateAnnotations value key).2 = []
        ↔ ∀ kv ∈ value, IsQualifiedName kv.1.toLower = []) := by
  refine ⟨rfl, ?_, ?_⟩
  · simp [validateAnnotations, List.length_flatMap, Function.comp_def]
  · simp [validateAnnotations, List.flatMap_eq_nil_iff, List.map_eq_nil_iff]

/-- Claim C2: `resourceIPPoolExists` answers `(true, nil)` exactly when the
configuration is available and the remote fetch of the named pool succeeds;
every failure — configuration error, not-found, or transport error alike —
produces `(false, the error)` in the same shape, and `(false, nil)` is never
returned. -/
theorem exists_result_characterisation (m : Meta) (d : ResourceData) :
    (resourceIPPoolExists m d).1
      = (match m.getCalicoConfiguration with
         | Except.error e => (false, some e)
         | Except.ok _ =>
           match m.poolsGet d.name with
           | Except.ok _ => (true, none)
           | Except.error e => (false, some e))
    ∧ (resourceIPPoolExists m d).1 ≠ (false, none) := by
  cases hc : m.getCalicoConfiguration <;>
    cases hg : m.poolsGet d.name <;>
      simp [resourceIPPoolExists, getIPPool, hc, hg]

/-- A not-found error message as the remote API produces for an absent pool. -/
def notFoundMsg : GoError := "ippools.projectcalico.org pool1 not found"

/-- Environment in which the named pool is absent: the configuration loads, but
every remote Get fails with the not-found error. -/
def metaNotFound : Meta :=
  { getCalicoConfiguration := Except.ok ()
    poolsGet := fun _ => Except.error notFoundMsg
    poolsCreate := fun _ => Except.error notFoundMsg
    poolsUpdate := fun _ => Except.error notFoundMsg
    poolsDelete := fun _ => some notFoundMsg }

/-- Local state holding pool `pool1` with its identifier set. -/
def dataPool1 : ResourceData :=
  { id := "pool1", name := "pool1", resourceVersion := "100"
    annotations := [], cidr := "192.168.0.0/16", blockSize := 26
    ipipMode := "Never", vxlanMode := "Never"
    natOutgoing := false, disabled := false, disableBGPExport := false }

/-- Claim C1 (code bug): for a pool name that does not exist remotely the claim
says Read clears the identifier and returns success, but because
`resourceIPPoolExists` never answers `(false, nil)` — the remote Get fails with
a not-found error, which Exists forwards — `resourceIPPoolRead` takes its
error branch: it returns the not-found error as a diagnostic and leaves the
identifier set, and the clear-identifier branch is unreachable. -/
theorem read_absent_pool_forwards_error :
    resourceIPPoolRead metaNotFound dataPool1
      = ⟨dataPool1, [notFoundMsg],
          [Event.lock, Event.fetch "pool1", Event.unlock]⟩
    ∧ (resourceIPPoolRead metaNotFound dataPool1).state.id = "pool1"
    ∧ (resourceIPPoolRead metaNotFound dataPool1).state.id ≠ ""
    ∧ (resourceIPPoolRead metaNotFound dataPool1).diags ≠ [] :=
  ⟨rfl, rfl, by decide, by decide⟩

/-- Claim C9: the fetch inside `getIPPool` happens strictly between acquiring
and releasing the process-wide lock on the success and the error path alike;
every fetch in an Exists or Read invocation sits inside such an
acquire/release pair; and the Create, Update and Delete operations emit no
lock event at all — their remote calls are issued without taking the lock. -/
theorem reads_locked_writes_unlocked (m : Meta) (d : ResourceData)
    (name : String) :
    (getIPPool m name).2 = [Event.lock, Event.fetch name, Event.unlock]
    ∧ fetchesUnderLock (resourceIPPoolExists m d).2 = true
    ∧ fetchesUnderLock (resourceIPPoolRead m d).trace = true
    ∧ (resourceIPPoolCreate m d).trace.all (fun e => !isLockEvent e) = true
    ∧ (resourceIPPoolUpdate m d).trace.all (fun e => !isLockEvent e) = true
    ∧ (resourceIPPoolDelete m d).trace.all (fun e => !isLockEvent e) = true := by
  refine ⟨rfl, ?_, ?_, ?_, ?_, ?_⟩
  · cases hc : m.getCalicoConfiguration <;>
      cases hg : m.poolsGet d.name <;>
        simp [resourceIPPoolExists, getIPPool, hc, hg, fetchesUnderLock]
  · cases hc : m.getCalicoConfiguration <;>
      cases hg : m.poolsGet d.name <;>
        simp [resourceIPPoolRead, resourceIPPoolExists, getIPPool, hc, hg,
          fetchesUnderLock]
  · cases hc : m.getCalicoConfiguration <;>
      [skip; cases hcr : m.poolsCreate (setIPPoolAttributes d)] <;>
        simp [resourceIPPoolCreate, hc, isLockEvent, *]
  · cases hc : m.getCalicoConfiguration <;>
      [skip; cases hcr : m.poolsUpdate (setIPPoolAttributes d)] <;>
        simp [resourceIPPoolUpdate, hc, isLockEvent, *]
  · cases hc : m.getCalicoConfiguration <;>
      [skip; cases hcr : m.poolsDelete d.name] <;>
        simp [resourceIPPoolDelete, hc, isLockEvent, *]

/-- Helper: the submitted pool's name is the local configuration's name. -/
theorem setIPPoolAttributes_name (d : ResourceData) :
    (setIPPoolAttributes d).name = d.name := rfl

/-- Claim C5: Create builds the submitted pool from exactly the local
configuration fields (name, resource_version, annotations, cidr, block_size,
the translated ipip and vxlan modes, nat_outgoing, disabled,
disable_bgp_export); on remote success the identifier is set to the submitted
object's name (which is the local name) with nothing else changed, and on
remote failure the error is returned with the whole local state — the
identifier included — untouched. -/
theorem create_builds_and_sets_id (m : Meta) (d : ResourceData)
    (hc : m.getCalicoConfiguration = Except.ok ()) :
    setIPPoolAttributes d
      = { name := d.name
          resourceVersion := d.resourceVersion
          annotations := d.annotations
          spec :=
            { blockSize := d.blockSize
              cidr := d.cidr
              disabled := d.disabled
              ipipMode := getIPIPMode d.ipipMode
              vxlanMode := getVXLANMode d.vxlanMode
              natOutgoing := d.natOutgoing
              disableBGPExport := d.disableBGPExport } }
    ∧ resourceIPPoolCreate m d
      = (match m.poolsCreate (setIPPoolAttributes d) with
         | Except.ok _ =>
           ⟨{ d with id := d.name }, [],
             [Event.createCall (setIPPoolAttributes d)]⟩
         | Except.error e =>
           ⟨d, [e], [Event.createCall (setIPPoolAttributes d)]⟩) := by
  refine ⟨rfl, ?_⟩
  cases hcr : m.poolsCreate (setIPPoolAttributes d) <;>
    simp [resourceIPPoolCreate, hc, hcr, setIPPoolAttributes_name]

/-- Server-side reply object whose name differs from every local name used in
the witnesses below: it shows the reply is discarded. -/
def poolServerReply : IPPool :=
  { name := "server-assigned-name"
    resourceVersion := "999"
    annotations := []
    spec :=
      { blockSize := 26, cidr := "10.0.0.0/16", disabled := false
        ipipMode := "Never", vxlanMode := "Never"
        natOutgoing := false, disableBGPExport := false } }

/-- Environment whose writes all succeed, returning `poolServerReply`. -/
def metaWritesOk : Meta :=
  { getCalicoConfiguration := Except.ok ()
    poolsGet := fun _ => Except.ok poolServerReply
    poolsCreate := fun _ => Except.ok poolServerReply
    poolsUpdate := fun _ => Except.ok poolServerReply
    poolsDelete := fun _ => none }

/-- Local configuration for the Create witness. -/
def dataC5 : ResourceData :=
  { id := "", name := "pool-c5", resourceVersion := ""
    annotations := [("app", "demo")], cidr := "10.0.0.0/16", blockSize := 26
    ipipMode := "Always", vxlanMode := "Never"
    natOutgoing := true, disabled := false, disableBGPExport := false }

/-- Witness for claim C5 at a concrete environment and configuration. -/
theorem create_builds_and_sets_id_witness :
    metaWritesOk.getCalicoConfiguration = Except.ok ()
    ∧ resourceIPPoolCreate metaWritesOk dataC5
      = ⟨{ dataC5 with id := "pool-c5" }, [],
          [Event.createCall (setIPPoolAttributes dataC5)]⟩ :=
  ⟨rfl, ((create_builds_and_sets_id metaWritesOk dataC5 rfl).2).trans rfl⟩

/-- Claim C7: Update builds a full replacement pool from the local
configuration — carrying the previously-read resource_version token — and
submits it as a whole-object update; on success the identifier is reset to the
pool's name, and on failure the local state is unchanged. -/
theorem update_full_replacement (m : Meta) (d : ResourceData)
    (hc : m.getCalicoConfiguration = Except.ok ()) :
    (setIPPoolAttributes d).resourceVersion = d.resourceVersion
    ∧ setIPPoolAttributes d
      = { name := d.name
          resourceVersion := d.resourceVersion
          annotations := d.annotations
          spec :=
            { blockSize := d.blockSize
              cidr := d.cidr
              disabled := d.disabled
              ipipMode := getIPIPMode d.ipipMode
              vxlanMode := getVXLANMode d.vxlanMode
              natOutgoing := d.natOutgoing
              disableBGPExport := d.disableBGPExport } }
    ∧ resourceIPPoolUpdate m d
      = (match m.poolsUpdate (setIPPoolAttributes d) with
         | Except.ok _ =>
           ⟨{ d with id := d.name }, [],
             [Event.updateCall (setIPPoolAttributes d)]⟩
         | Except.error e =>
           ⟨d, [e], [Event.updateCall (setIPPoolAttributes d)]⟩) := by
  refine ⟨rfl, rfl, ?_⟩
  cases hu : m.poolsUpdate (setIPPoolAttributes d) <;>
    simp [resourceIPPoolUpdate, hc, hu, setIPPoolAttributes_name]

/-- Local configuration for the Update witness, with a previously-read
resource_version token. -/
def dataC7 : ResourceData :=
  { id := "pool-c7", name := "pool-c7", resourceVersion := "4711"
    annotations := [], cidr := "172.16.0.0/12", blockSize := 27
    ipipMode := "Never", vxlanMode := "CrossSubnet"
    natOutgoing := false, disabled := true, disableBGPExport := true }

/-- Witness for claim C7 at a concrete environment and configuration. -/
theorem update_full_replacement_witness :
    metaWritesOk.getCalicoConfiguration = Except.ok ()
    ∧ (setIPPoolAttributes dataC7).resourceVersion = "4711"
    ∧ resourceIPPoolUpdate metaWritesOk dataC7
      = ⟨{ dataC7 with id := "pool-c7" }, [],
          [Event.updateCall (setIPPoolAttributes dataC7)]⟩ := by
  have h := update_full_replacement metaWritesOk dataC7 rfl
  exact ⟨rfl, h.1, h.2.2.trans rfl⟩

/-- Claim C6: Delete issues exactly one remote call — the Delete by name, with
no prior existence check (no fetch appears in the trace) — and forwards any
remote error verbatim while leaving the local state, the identifier included,
unchanged; on success the state is also left as it was. -/
theorem delete_single_call_forwards (m : Meta) (d : ResourceData)
    (hc : m.getCalicoConfiguration = Except.ok ()) :
    (resourceIPPoolDelete m d).trace = [Event.deleteCall d.name]
    ∧ resourceIPPoolDelete m d
      = (match m.poolsDelete d.name with
         | some e => ⟨d, [e], [Event.deleteCall d.name]⟩
         | none => ⟨d, [], [Event.deleteCall d.name]⟩) := by
  cases hd : m.poolsDelete d.name <;>
    simp [resourceIPPoolDelete, hc, hd]

/-- Environment whose remote Delete fails, as for an already-absent pool. -/
def metaDeleteFails : Meta :=
  { getCalicoConfiguration := Except.ok ()
    poolsGet := fun _ => Except.error "backend unavailable"
    poolsCreate := fun _ => Except.error "backend unavailable"
    poolsUpdate := fun _ => Except.error "backend unavailable"
    poolsDelete := fun _ => some "backend unavailable" }

/-- Local state for the Delete witness. -/
def dataC6 : ResourceData :=
  { id := "pool-c6", name := "pool-c6", resourceVersion := "7"
    annotations := [], cidr := "10.20.0.0/16", blockSize := 26
    ipipMode := "Never", vxlanMode := "Never"
    natOutgoing := false, disabled := false, disableBGPExport := false }

/-- Witness for claim C6: a failing remote Delete forwards its error and leaves
the identifier set. -/
theorem delete_single_call_forwards_witness :
    metaDeleteFails.getCalicoConfiguration = Except.ok ()
    ∧ resourceIPPoolDelete metaDeleteFails dataC6
      = ⟨dataC6, ["backend unavailable"], [Event.deleteCall "pool-c6"]⟩ :=
  ⟨rfl, ((delete_single_call_forwards metaDeleteFails dataC6 rfl).2).trans rfl⟩

/-- Claim C10: on a successful Create or Update the server's reply objects `p`
and `q` are discarded entirely — the result does not depend on them: the only
local change is the identifier, set to the name from the local configuration,
and in particular the locally stored resource_version and every other field
keep their pre-call values. -/
theorem create_update_discard_server_reply (m : Meta) (d : ResourceData)
    (p q : IPPool)
    (hc : m.getCalicoConfiguration = Except.ok ())
    (hp : m.poolsCreate (setIPPoolAttributes d) = Except.ok p)
    (hq : m.poolsUpdate (setIPPoolAttributes d) = Except.ok q) :
    resourceIPPoolCreate m d
      = ⟨{ d with id := d.name }, [],
          [Event.createCall (setIPPoolAttributes d)]⟩
    ∧ resourceIPPoolUpdate m d
      = ⟨{ d with id := d.name }, [],
          [Event.updateCall (setIPPoolAttributes d)]⟩ := by
  constructor <;>
    simp [resourceIPPoolCreate, resourceIPPoolUpdate, hc, hp, hq,
      setIPPoolAttributes_name]

/-- Local configuration for the reply-discarding witness; its name differs from
the name in the server's reply. -/
def dataC10 : ResourceData :=
  { id := "", name := "pool-c10", resourceVersion := "55"
    annotations := [], cidr := "10.30.0.0/16", blockSize := 26
    ipipMode := "Never", vxlanMode := "Never"
    natOutgoing := false, disabled := false, disableBGPExport := false }

/-- Witness for claim C10: the server replies with a different name and
resource_version, yet the local identifier becomes the local name and the
local resource_version keeps its old value. -/
theorem create_update_discard_server_reply_witness :
    metaWritesOk.poolsCreate (setIPPoolAttributes dataC10)
        = Except.ok poolServerReply
    ∧ poolServerReply.name ≠ dataC10.name
    ∧ poolServerReply.resourceVersion ≠ dataC10.resourceVersion
    ∧ resourceIPPoolCreate metaWritesOk dataC10
      = ⟨{ dataC10 with id := dataC10.name }, [],
          [Event.createCall (setIPPoolAttributes dataC10)]⟩
    ∧ resourceIPPoolUpdate metaWritesOk dataC10
      = ⟨{ dataC10 with id := dataC10.name }, [],
          [Event.updateCall (setIPPoolAttributes dataC10)]⟩ := by
  have h := create_update_discard_server_reply metaWritesOk dataC10
    poolServerReply poolServerReply rfl rfl rfl
  exact ⟨rfl, by decide, by decide, h.1, h.2⟩

/-- Helper: the StringInSlice validator over the three mode strings accepts a
value exactly when it is one of Always, CrossSubnet and Never. -/
theorem stringInSlice_modes_eq_nil (v k : String) :
    stringInSlice ["Always", "CrossSubnet", "Never"] false v k = []
      ↔ (v = "Always" ∨ v = "CrossSubnet" ∨ v = "Never") := by
  unfold stringInSlice
  split <;> rename_i h <;>
    simp only [List.any_cons, List.any_nil, Bool.or_eq_true,
      Bool.and_eq_true, Bool.false_eq_true, false_and, or_false,
      decide_eq_true_eq] at h
  · simp only [true_iff]
    rcases h with h | h | h
    · exact Or.inl h.symm
    · exact Or.inr (Or.inl h.symm)
    · exact Or.inr (Or.inr h.symm)
  · constructor
    · intro hfalse; simp at hfalse
    · intro hv
      exfalso
      apply h
      rcases hv with h1 | h1 | h1
      · exact Or.inl h1.symm
      · exact Or.inr (Or.inl h1.symm)
      · exact Or.inr (Or.inr h1.symm)

/-- Claim C8: the declared schema marks `spec.0.ipip_mode` and
`spec.0.vxlan_mode` as mutually conflicting, each field's ValidateFunc accepts
exactly the strings Always, CrossSubnet and Never, and a configuration that
sets both fields to non-default (non-Never) values is rejected by the
configuration-level validation pass, which runs before any remote call. -/
theorem mode_conflict_rejected (i v : String)
    (hi : i ≠ "Never") (hv : v ≠ "Never") :
    ipipModeSchema.conflictsWith = ["spec.0.vxlan_mode"]
    ∧ vxlanModeSchema.conflictsWith = ["spec.0.ipip_mode"]
    ∧ (ipipModeSchema.validateFunc i "spec.0.ipip_mode" = []
        ↔ (i = "Always" ∨ i = "CrossSubnet" ∨ i = "Never"))
    ∧ (vxlanModeSchema.validateFunc v "spec.0.vxlan_mode" = []
        ↔ (v = "Always" ∨ v = "CrossSubnet" ∨ v = "Never"))
    ∧ validateModeConfig (some i) (some v) ≠ [] := by
  refine ⟨rfl, rfl, ?_, ?_, ?_⟩
  · exact stringInSlice_modes_eq_nil i "spec.0.ipip_mode"
  · exact stringInSlice_modes_eq_nil v "spec.0.vxlan_mode"
  · have hmem : "spec.0.ipip_mode conflicts with spec.0.vxlan_mode"
        ∈ validateModeConfig (some i) (some v) := by
      simp [validateModeConfig, conflictErrors, setNonDefault,
        ipipModeSchema, vxlanModeSchema, hi, hv]
    exact List.ne_nil_of_mem hmem

/-- Witness for claim C8 at the concrete conflicting configuration
ipip_mode = Always, vxlan_mode = CrossSubnet. -/
theorem mode_conflict_rejected_witness :
    ("Always" : String) ≠ "Never" ∧ ("CrossSubnet" : String) ≠ "Never"
    ∧ validateModeConfig (some "Always") (some "CrossSubnet") ≠ [] := by
  have h := mode_conflict_rejected "Always" "CrossSubnet"
    (by decide) (by decide)
  exact ⟨by decide, by decide, h.2.2.2.2⟩

end Calico
